import Mathlib

/-!
Shallow embedding of the Singapore weather-advisory pipeline of
`src/js/app.js` (class `SingaporeWeatherService`), together with theorems
settling the specification claims about it.

Modelling conventions:
* JavaScript strings are Lean `String`; `s.includes(pat)` is `jsIncludes`,
  `s.toLowerCase()` is `jsToLower`.
* Timestamps are `Nat` (ISO-8601 strings compare chronologically, so the
  source's string comparison `item.timestamp <= currentTime` is `≤` on `Nat`).
* Station temperature values are `Rat`; `Math.round` is `jsRound`
  (round half toward positive infinity, as in JavaScript).
* A fetch of a feed yields a `FetchResult`: a transport-level failure
  (the promise rejects), a non-success HTTP response (`response.ok` false),
  or a parsed body.
* Accessing a field of `undefined` (e.g. `data.items[0].readings` on an
  empty list) throws; inside `getCurrentWeather` the `try`/`catch` rethrows,
  so such paths are `Except.error`.
* The source file's temperature literals contain the bytes for "Â°"
  (mojibake of the degree sign); the embedding reproduces them exactly as
  `Â°`.
-/

/-- `s.toLowerCase()` of JavaScript, on the ASCII letters the feeds use:
lowercase every character. -/
def jsToLower (s : String) : String :=
  ⟨s.toList.map Char.toLower⟩

/-- `s.includes(pat)` of JavaScript: `pat` occurs contiguously in `s`. -/
def jsIncludes (s pat : String) : Bool :=
  decide (pat.toList <:+: s.toList)

/-- `Math.round` of JavaScript on a rational: half-way cases round toward
positive infinity. -/
def jsRound (q : Rat) : Int :=
  (q + 1/2).floor

/-- Auxiliary for `dashWhitespace`: the flag records whether the previous
character was whitespace (so a run of whitespace yields a single dash). -/
def dashWSAux : Bool → List Char → List Char
  | _, [] => []
  | prevWS, c :: rest =>
    if c.isWhitespace then
      (if prevWS then [] else ['-']) ++ dashWSAux true rest
    else
      c :: dashWSAux false rest

/-- `forecast.replace(/\s+/g, '-')`: each maximal whitespace run becomes one
dash. -/
def dashWhitespace (s : String) : String :=
  ⟨dashWSAux false s.toList⟩

/-- One per-area entry of the 2-hour forecast feed:
`{area: string, forecast: string}`. -/
structure AreaForecast where
  area : String
  forecast : String
  deriving Repr, DecidableEq

/-- One timestamped batch of the 2-hour forecast feed. -/
structure ForecastItem where
  timestamp : Nat
  forecasts : List AreaForecast
  deriving Repr, DecidableEq

/-- Parsed body of the 2-hour forecast response. -/
structure TwoHourData where
  items : List ForecastItem
  deriving Repr, DecidableEq

/-- One per-station reading of the air-temperature feed:
`{station_id: string, value: number}`. -/
structure Reading where
  station_id : String
  value : Rat
  deriving Repr, DecidableEq

/-- One timestamped batch of the air-temperature feed. -/
structure TempItem where
  timestamp : Nat
  readings : List Reading
  deriving Repr, DecidableEq

/-- Parsed body of the air-temperature response. -/
structure TempData where
  items : List TempItem
  deriving Repr, DecidableEq

/-- A `{high, low}` pair of the 4-day forecast feed. -/
structure HighLow where
  high : Int
  low : Int
  deriving Repr, DecidableEq

/-- Optional wind block of a 4-day forecast day: `{speed: {high, low}}`. -/
structure WindInfo where
  speed : HighLow
  deriving Repr, DecidableEq

/-- One day entry of the 4-day forecast feed. -/
structure DayForecast where
  date : String
  forecast : String
  temperature : HighLow
  relative_humidity : HighLow
  wind : Option WindInfo
  deriving Repr, DecidableEq

/-- One item of the 4-day forecast response (`data.items[0]` is used). -/
structure FourDayItem where
  forecasts : List DayForecast
  deriving Repr, DecidableEq

/-- Parsed body of the 4-day forecast response. -/
structure FourDayData where
  items : List FourDayItem
  deriving Repr, DecidableEq

/-- Result of one `fetch` of a feed: the promise rejects (`transportError`),
the response arrives with `response.ok` false (`httpError`), or the parsed
body is available. -/
inductive FetchResult (α : Type) where
  | transportError
  | httpError
  | ok (body : α)
  deriving Repr, DecidableEq

/-- The object returned by `processWeatherData`. -/
structure WeatherData where
  temp : String
  icon : String
  desc : String
  condition : String
  deriving Repr, DecidableEq

/-- One entry of the array returned by `getWeatherForecast`. -/
structure DailyOutlook where
  date : String
  weather : String
  tempHigh : String
  tempLow : String
  humidity : String
  wind : String
  icon : String
  cleanupSuitability : String
  deriving Repr, DecidableEq

/-- The three fields `renderWeather` reads and writes to the
current-conditions widgets. -/
structure WeatherRender where
  temp : String
  icon : String
  desc : String
  deriving Repr, DecidableEq

/-- `getWeatherIcon` (app.js lines 750–768): ordered case-insensitive
substring checks, first match wins. -/
def getWeatherIcon (forecast : String) : String :=
  let weatherLower := jsToLower forecast
  if jsIncludes weatherLower "thundery" || jsIncludes weatherLower "thunder" then
    "fa-bolt"
  else if jsIncludes weatherLower "heavy rain" || jsIncludes weatherLower "heavy shower" then
    "fa-cloud-rain"
  else if jsIncludes weatherLower "rain" || jsIncludes weatherLower "shower" then
    "fa-cloud-drizzle"
  else if jsIncludes weatherLower "cloudy" then
    "fa-cloud"
  else if jsIncludes weatherLower "partly cloudy" || jsIncludes weatherLower "fair" then
    "fa-cloud-sun"
  else if jsIncludes weatherLower "hazy" || jsIncludes weatherLower "mist" then
    "fa-smog"
  else
    "fa-sun"

/-- `getCleanupRecommendation` (app.js lines 770–788): its own ordered rule
set, independent of `getWeatherIcon`'s. -/
def getCleanupRecommendation (forecast : String) : String :=
  let weatherLower := jsToLower forecast
  if jsIncludes weatherLower "thundery" || jsIncludes weatherLower "heavy rain" then
    "Not ideal for cleanup"
  else if jsIncludes weatherLower "rain" || jsIncludes weatherLower "shower" then
    "Consider postponing"
  else if jsIncludes weatherLower "fair" || jsIncludes weatherLower "sunny" then
    "Perfect for cleanup!"
  else if jsIncludes weatherLower "partly cloudy" then
    "Great conditions!"
  else if jsIncludes weatherLower "cloudy" then
    "Good for cleanup!"
  else if jsIncludes weatherLower "hazy" then
    "Okay, but stay hydrated"
  else
    "Check conditions!"

/-- `calculateSuitabilityScore` (app.js lines 800–819). The argument is the
already-lowercased condition text, exactly as the source passes it. -/
def calculateSuitabilityScore (weather : String) (temp humidity : Int) : Int :=
  let score : Int := 5
  let score :=
    if jsIncludes weather "fair" || jsIncludes weather "sunny" then score + 3
    else if jsIncludes weather "partly cloudy" then score + 2
    else if jsIncludes weather "cloudy" then score + 1
    else if jsIncludes weather "rain" || jsIncludes weather "shower" then score - 3
    else if jsIncludes weather "thundery" then score - 5
    else score
  let score :=
    if 24 ≤ temp ∧ temp ≤ 32 then score + 1
    else if 32 < temp then score - 1
    else score
  let score :=
    if humidity < 70 then score + 1
    else if 85 < humidity then score - 1
    else score
  max 0 (min 10 score)

/-- The rating lookup of `getCleanupSuitability` (app.js lines 794–797). -/
def ratingOfScore (score : Int) : String :=
  if 8 ≤ score then "Excellent"
  else if 6 ≤ score then "Good"
  else if 4 ≤ score then "Fair"
  else "Poor"

/-- `getCleanupSuitability` (app.js lines 790–798): lowercases the condition,
scores it, then applies the rating thresholds. -/
def getCleanupSuitability (forecast : String) (tempHigh humidity : Int) : String :=
  ratingOfScore (calculateSuitabilityScore (jsToLower forecast) tempHigh humidity)

example : getWeatherIcon "Thundery Showers" = "fa-bolt" := by decide
example : getWeatherIcon "Partly Cloudy" = "fa-cloud" := by decide
example : getCleanupRecommendation "Partly Cloudy" = "Great conditions!" := by decide
example : calculateSuitabilityScore "thundery" 33 86 = 0 := by decide
example : calculateSuitabilityScore "thundery with sunny spells" 33 86 = 6 := by decide
example : dashWhitespace "partly  cloudy" = "partly-cloudy" := by decide

/-- The predicate of the `readings.find(...)` call in `getCurrentWeather`
(app.js lines 694–697): station S07 (Changi) or S43 (Pasir Ris). -/
def isEastStation (r : Reading) : Bool :=
  r.station_id == "S07" || r.station_id == "S43"

/-- `latestTemp.readings.find(reading => reading.station_id === 'S07' ||
reading.station_id === 'S43')` — the first reading in list order matching
either station. -/
def findEastTemp (readings : List Reading) : Option Reading :=
  readings.find? isEastStation

/-- The fixed default temperature display (app.js line 689; the source's
literal bytes decode to the two characters `Â°`). -/
def defaultTemperature : String := "28Â°C"

/-- The temperature half of `getCurrentWeather` (app.js lines 688–701):
a non-ok response keeps the default; an ok response with an empty `items`
list throws (`latestTemp.readings` on `undefined`); otherwise the first
matching east-station reading is rounded and formatted, the default being
kept when no reading matches. A transport failure of the fetch is rethrown
by the surrounding `catch`. -/
def temperatureDisplay (respTemp : FetchResult TempData) : Except Unit String :=
  match respTemp with
  | .transportError => .error ()
  | .httpError => .ok defaultTemperature
  | .ok tempData =>
    match tempData.items.head? with
    | none => .error ()
    | some latestTemp =>
      match findEastTemp latestTemp.readings with
      | some eastTemp => .ok (toString (jsRound eastTemp.value) ++ "Â°C")
      | none => .ok defaultTemperature

/-- The predicate of the `latestForecast.forecasts.find(...)` call
(app.js lines 682–685): area name contains "pasir ris" or "east",
case-insensitively. -/
def isTargetArea (f : AreaForecast) : Bool :=
  jsIncludes (jsToLower f.area) "pasir ris" || jsIncludes (jsToLower f.area) "east"

/-- `latestForecast.forecasts.find(...) || latestForecast.forecasts[0]`
(app.js lines 682–685). -/
def selectAreaForecast (forecasts : List AreaForecast) : Option AreaForecast :=
  (forecasts.find? isTargetArea).orElse fun _ => forecasts.head?

/-- The predicate of the `data.items.find(...)` call (app.js line 679):
the item's timestamp is not after now. -/
def notAfter (now : Nat) (it : ForecastItem) : Bool :=
  decide (it.timestamp ≤ now)

/-- `data.items.find(item => item.timestamp <= currentTime) || data.items[0]`
(app.js line 679). -/
def selectLatestItem (items : List ForecastItem) (now : Nat) : Option ForecastItem :=
  (items.find? (notAfter now)).orElse fun _ => items.head?

/-- `processWeatherData` (app.js lines 738–748). -/
def processWeatherData (forecast temperature : String) : WeatherData :=
  { temp := temperature
    icon := getWeatherIcon forecast
    desc := getCleanupRecommendation forecast
    condition := dashWhitespace (jsToLower forecast) }

/-- `getCurrentWeather` (app.js lines 669–708). Any transport failure, any
non-ok 2-hour response, and any access to a field of `undefined` (empty
`items` or empty `forecasts`) is rethrown by the `catch` as an error; a
non-ok temperature response alone is absorbed into the default display. -/
def getCurrentWeather (resp2h : FetchResult TwoHourData)
    (respTemp : FetchResult TempData) (now : Nat) : Except Unit WeatherData :=
  match resp2h with
  | .transportError => .error ()
  | .httpError => .error ()
  | .ok data =>
    match selectLatestItem data.items now with
    | none => .error ()
    | some latestForecast =>
      match selectAreaForecast latestForecast.forecasts with
      | none => .error ()
      | some pasirRisForecast =>
        match temperatureDisplay respTemp with
        | .error e => .error e
        | .ok temperature => .ok (processWeatherData pasirRisForecast.forecast temperature)

/-- The per-day mapping of `getWeatherForecast` (app.js lines 718–731).
`fmtDate` stands for the external `toLocaleDateString('en-SG', ...)` call. -/
def mkDailyOutlook (fmtDate : String → String) (day : DayForecast) : DailyOutlook :=
  { date := fmtDate day.date
    weather := day.forecast
    tempHigh := toString day.temperature.high ++ "Â°C"
    tempLow := toString day.temperature.low ++ "Â°C"
    humidity := toString day.relative_humidity.high ++ "%"
    wind := match day.wind with
      | some w => toString w.speed.high ++ " km/h"
      | none => "Light"
    icon := getWeatherIcon day.forecast
    cleanupSuitability :=
      getCleanupSuitability day.forecast day.temperature.high day.relative_humidity.high }

/-- `getWeatherForecast` (app.js lines 710–736): its `catch` turns every
failure — transport, non-ok response, or `data.items[0]` being `undefined` —
into an empty list; otherwise the first five day entries are mapped. -/
def getWeatherForecast (fmtDate : String → String)
    (resp4d : FetchResult FourDayData) : List DailyOutlook :=
  match resp4d with
  | .transportError => []
  | .httpError => []
  | .ok data =>
    match data.items.head? with
    | none => []
    | some item => (item.forecasts.take 5).map (mkDailyOutlook fmtDate)

/-- `renderWeather` (app.js lines 821–831): the three widget texts written
from a result of `processWeatherData` or of the fallback. -/
def renderWeather (temp icon desc : String) : WeatherRender :=
  { temp := temp, icon := icon, desc := desc }

/-- `renderFallbackWeather` (app.js lines 878–884). -/
def renderFallbackWeather : WeatherRender :=
  renderWeather "28Â°C" "fa-sun" "Check local weather!"

/-- `renderForecast` (app.js lines 833–865): with an empty list the forecast
widget is left unrendered (`none`); otherwise the list is written. -/
def renderForecast (forecastData : List DailyOutlook) : Option (List DailyOutlook) :=
  if forecastData.isEmpty then none else some forecastData

/-- `updateWeatherDisplay` (app.js lines 657–667), one pipeline run over the
three fetch outcomes: on any error thrown by `getCurrentWeather` the fallback
triple is rendered and the forecast widget is untouched; otherwise the
current conditions and the (possibly empty, hence unrendered) forecast are
rendered. `getWeatherForecast` never throws. -/
def updateWeatherDisplay (resp2h : FetchResult TwoHourData)
    (respTemp : FetchResult TempData) (resp4d : FetchResult FourDayData)
    (fmtDate : String → String) (now : Nat) :
    WeatherRender × Option (List DailyOutlook) :=
  match getCurrentWeather resp2h respTemp now with
  | .error _ => (renderFallbackWeather, none)
  | .ok w => (renderWeather w.temp w.icon w.desc,
              renderForecast (getWeatherForecast fmtDate resp4d))

example :
    findEastTemp [⟨"S43", 30⟩, ⟨"S07", 25⟩] = some ⟨"S43", 30⟩ := by decide
example :
    temperatureDisplay (.ok ⟨[⟨5, [⟨"S43", 30⟩, ⟨"S07", 25⟩]⟩]⟩)
      = .ok (toString (jsRound 30) ++ "Â°C") := rfl
example : temperatureDisplay .httpError = .ok "28Â°C" := rfl
example :
    selectAreaForecast [⟨"East Coast", "Fair"⟩, ⟨"Pasir Ris", "Showers"⟩]
      = some ⟨"East Coast", "Fair"⟩ := by decide
example :
    selectLatestItem [⟨5, [⟨"A", "Fair"⟩]⟩, ⟨8, [⟨"B", "Rain"⟩]⟩] 10
      = some ⟨5, [⟨"A", "Fair"⟩]⟩ := by decide
example :
    updateWeatherDisplay (.ok ⟨[⟨5, [⟨"Pasir Ris", "Fair"⟩]⟩]⟩)
        .httpError .httpError id 10
      = (⟨"28Â°C", "fa-cloud-sun", "Perfect for cleanup!"⟩, none) := rfl
example :
    updateWeatherDisplay .httpError .httpError .httpError id 10
      = (renderFallbackWeather, none) := rfl

/-! ### Helper lemmas -/

/-- `find?` skips a prefix on which the predicate is everywhere false. -/
theorem find?_of_forall_false {α : Type} {p : α → Bool} {pre : List α}
    (rest : List α) (h : ∀ x ∈ pre, p x = false) :
    (pre ++ rest).find? p = rest.find? p := by
  rw [List.find?_append, List.find?_eq_none.mpr fun x hx => by simp [h x hx],
    Option.none_or]

/-- `jsIncludes` is the infix relation on the underlying character lists. -/
theorem jsIncludes_eq_true_iff {s pat : String} :
    jsIncludes s pat = true ↔ pat.toList <:+: s.toList :=
  decide_eq_true_iff

/-- A string containing `p` contains every infix of `p`. -/
theorem jsIncludes_trans {s p q : String} (hq : q.toList <:+: p.toList)
    (hp : jsIncludes s p = true) : jsIncludes s q = true :=
  jsIncludes_eq_true_iff.mpr (hq.trans (jsIncludes_eq_true_iff.mp hp))

/-- `getCurrentWeather` throws whenever the temperature half throws — a
transport failure of the temperature fetch, or an ok temperature body with
an empty `items` list — whatever the 2-hour response was. -/
theorem getCurrentWeather_tempError (resp2h : FetchResult TwoHourData)
    (respTemp : FetchResult TempData) (now : Nat)
    (h : temperatureDisplay respTemp = .error ()) :
    getCurrentWeather resp2h respTemp now = .error () := by
  cases resp2h with
  | transportError => rfl
  | httpError => rfl
  | ok data =>
    rcases h1 : selectLatestItem data.items now with _ | lf
    · simp [getCurrentWeather, h1]
    · rcases h2 : selectAreaForecast lf.forecasts with _ | af
      · simp [getCurrentWeather, h1, h2]
      · simp [getCurrentWeather, h1, h2, h]

/-- A single 2-hour batch is always selected, whether or not its timestamp
is in the future (by the match or by the `|| data.items[0]` fallback). -/
theorem selectLatestItem_singleton (it : ForecastItem) (now : Nat) :
    selectLatestItem [it] now = some it := by
  unfold selectLatestItem
  cases hb : notAfter now it <;> simp [hb]

/-! ### Claim theorems -/

/-- C1 (counterexample): with the 2-hour feed succeeding while both the
air-temperature and the 4-day forecast fetches return non-success responses,
the run is not aborted: live current conditions are rendered with the
default temperature, the forecast widget is left unrendered, and the result
differs from the fallback triple — a partial result, contradicting the
claim that any feed failure aborts the whole run. -/
theorem feedFailure_not_aborting :
    updateWeatherDisplay (.ok ⟨[⟨5, [⟨"Pasir Ris", "Fair"⟩]⟩]⟩)
        .httpError .httpError id 10
      = (⟨"28Â°C", "fa-cloud-sun", "Perfect for cleanup!"⟩, none)
    ∧ (⟨"28Â°C", "fa-cloud-sun", "Perfect for cleanup!"⟩ : WeatherRender)
        ≠ renderFallbackWeather :=
  ⟨rfl, by decide⟩

/-- C1 (amended): a transport failure or non-success response of the 2-hour
feed aborts the run to the fallback path, as does a transport failure of the
air-temperature fetch; missing expected structure in the 2-hour body (an
empty `items` list, or a selected batch with an empty `forecasts` list) or
in the temperature body (an empty `items` list) likewise aborts the run to
the fallback path; but a non-success air-temperature response is absorbed
into the default temperature display, and any failure of the 4-day feed
only leaves the forecast widget unrendered while the current conditions are
still rendered. -/
theorem errorPolicy_amended :
    (∀ (respTemp : FetchResult TempData) (resp4d : FetchResult FourDayData)
        (fmtDate : String → String) (now : Nat),
        updateWeatherDisplay .transportError respTemp resp4d fmtDate now
          = (renderFallbackWeather, none)
      ∧ updateWeatherDisplay .httpError respTemp resp4d fmtDate now
          = (renderFallbackWeather, none))
    ∧ (∀ (resp2h : FetchResult TwoHourData) (resp4d : FetchResult FourDayData)
        (fmtDate : String → String) (now : Nat),
        updateWeatherDisplay resp2h .transportError resp4d fmtDate now
          = (renderFallbackWeather, none))
    ∧ (∀ (respTemp : FetchResult TempData) (resp4d : FetchResult FourDayData)
        (fmtDate : String → String) (now : Nat),
        updateWeatherDisplay (.ok ⟨[]⟩) respTemp resp4d fmtDate now
          = (renderFallbackWeather, none))
    ∧ (∀ (ts : Nat) (respTemp : FetchResult TempData)
        (resp4d : FetchResult FourDayData) (fmtDate : String → String) (now : Nat),
        updateWeatherDisplay (.ok ⟨[⟨ts, []⟩]⟩) respTemp resp4d fmtDate now
          = (renderFallbackWeather, none))
    ∧ (∀ (resp2h : FetchResult TwoHourData) (resp4d : FetchResult FourDayData)
        (fmtDate : String → String) (now : Nat),
        updateWeatherDisplay resp2h (.ok ⟨[]⟩) resp4d fmtDate now
          = (renderFallbackWeather, none))
    ∧ temperatureDisplay .httpError = .ok defaultTemperature
    ∧ (∀ (resp2h : FetchResult TwoHourData) (respTemp : FetchResult TempData)
        (fmtDate : String → String) (now : Nat),
        (updateWeatherDisplay resp2h respTemp .transportError fmtDate now).2 = none
      ∧ (updateWeatherDisplay resp2h respTemp .httpError fmtDate now).2 = none) := by
  refine ⟨fun respTemp resp4d fmtDate now => ⟨rfl, rfl⟩, ?_, ?_, ?_, ?_, rfl, ?_⟩
  · intro resp2h resp4d fmtDate now
    simp [updateWeatherDisplay,
      getCurrentWeather_tempError resp2h .transportError now rfl]
  · intro respTemp resp4d fmtDate now
    rfl
  · intro ts respTemp resp4d fmtDate now
    simp [updateWeatherDisplay, getCurrentWeather, selectLatestItem_singleton,
      selectAreaForecast]
  · intro resp2h resp4d fmtDate now
    simp [updateWeatherDisplay,
      getCurrentWeather_tempError resp2h (.ok ⟨[]⟩) now rfl]
  · intro resp2h respTemp fmtDate now
    constructor <;>
      rcases h : getCurrentWeather resp2h respTemp now with _ | w <;>
        simp [updateWeatherDisplay, h, getWeatherForecast, renderForecast]

/-- C2 (counterexample): with readings for both stations S43 and S07 present
with distinct values and S43 listed first, the selected reading is S43's,
not S07's — so S07 has no priority over S43 independent of list order. -/
theorem stationOrder_counterexample :
    findEastTemp [⟨"S43", 30⟩, ⟨"S07", 25⟩] = some ⟨"S43", 30⟩
    ∧ (30 : Rat) ≠ 25 := by decide

/-- C2 (amended): the temperature selection takes the first reading in list
order whose station is S07 or S43 — S07 is selected only when it precedes
S43, not by a station priority; if no reading matches either station, the
fixed default display value is used. -/
theorem stationSelection_amended :
    (∀ (pre post : List Reading) (r : Reading),
        (∀ x ∈ pre, isEastStation x = false) → isEastStation r = true →
        findEastTemp (pre ++ r :: post) = some r)
    ∧ (∀ (ti : Nat) (rs : List Reading) (rest : List TempItem),
        (∀ x ∈ rs, isEastStation x = false) →
        temperatureDisplay (.ok ⟨⟨ti, rs⟩ :: rest⟩) = .ok defaultTemperature) := by
  constructor
  · intro pre post r hpre hr
    unfold findEastTemp
    rw [find?_of_forall_false _ hpre, List.find?_cons_of_pos _ hr]
  · intro ti rs rest hrs
    have hnone : findEastTemp rs = none :=
      List.find?_eq_none.mpr fun x hx => by simp [hrs x hx]
    simp [temperatureDisplay, hnone]

/-- C2 witness: station S100 does not match, S43 does, so S43's reading is
selected. -/
theorem stationSelection_amended_witness :
    findEastTemp [⟨"S100", 20⟩, ⟨"S43", 31⟩] = some ⟨"S43", 31⟩ :=
  stationSelection_amended.1 [⟨"S100", 20⟩] [] ⟨"S43", 31⟩ (by decide) (by decide)

/-- C3 (counterexample): an area merely containing "east" listed before
"Pasir Ris" is selected, so "pasir ris" is not preferred over "east"
independent of list order. -/
theorem areaOrder_counterexample :
    selectAreaForecast [⟨"East Coast", "Fair"⟩, ⟨"Pasir Ris", "Showers"⟩]
      = some ⟨"East Coast", "Fair"⟩
    ∧ jsIncludes (jsToLower "East Coast") "pasir ris" = false
    ∧ jsIncludes (jsToLower "Pasir Ris") "pasir ris" = true := by decide

/-- C3 (amended): the area selection takes the first entry in list order
whose lowercased name contains "pasir ris" or "east" — "pasir ris" is
preferred over "east" only by position; if no entry contains either
substring, the first area entry is the fallback. -/
theorem areaSelection_amended :
    (∀ (pre post : List AreaForecast) (f : AreaForecast),
        (∀ x ∈ pre, isTargetArea x = false) → isTargetArea f = true →
        selectAreaForecast (pre ++ f :: post) = some f)
    ∧ (∀ fs : List AreaForecast,
        (∀ x ∈ fs, isTargetArea x = false) →
        selectAreaForecast fs = fs.head?) := by
  constructor
  · intro pre post f hpre hf
    unfold selectAreaForecast
    rw [find?_of_forall_false _ hpre, List.find?_cons_of_pos _ hf]
    rfl
  · intro fs hfs
    unfold selectAreaForecast
    rw [List.find?_eq_none.mpr fun x hx => by simp [hfs x hx]]
    rfl

/-- C3 witness: "Changi" matches neither substring, "PASIR RIS" matches
case-insensitively, so it is selected past the non-matching prefix. -/
theorem areaSelection_amended_witness :
    selectAreaForecast [⟨"Changi", "Cloudy"⟩, ⟨"PASIR RIS", "Showers"⟩]
      = some ⟨"PASIR RIS", "Showers"⟩ :=
  areaSelection_amended.1 [⟨"Changi", "Cloudy"⟩] [] ⟨"PASIR RIS", "Showers"⟩
    (by decide) (by decide)

/-- C4 (counterexample): with two non-future batches, the first in list
order is selected even though the second has the later (closest-to-now)
timestamp — the code takes the first batch with timestamp ≤ now, not the
latest one. -/
theorem latestItem_counterexample :
    selectLatestItem [⟨5, [⟨"A", "Fair"⟩]⟩, ⟨8, [⟨"B", "Rain"⟩]⟩] 10
      = some ⟨5, [⟨"A", "Fair"⟩]⟩
    ∧ (8 : Nat) ≤ 10 ∧ (5 : Nat) < 8 := by decide

/-- C4 (amended): the batch selection takes the first batch in list order
whose timestamp is ≤ now (which is the latest non-future one only if the
feed is sorted newest-first); if no batch qualifies, the first batch in the
list is the fallback. -/
theorem itemSelection_amended :
    (∀ (now : Nat) (pre post : List ForecastItem) (it : ForecastItem),
        (∀ x ∈ pre, notAfter now x = false) → notAfter now it = true →
        selectLatestItem (pre ++ it :: post) now = some it)
    ∧ (∀ (now : Nat) (items : List ForecastItem),
        (∀ x ∈ items, notAfter now x = false) →
        selectLatestItem items now = items.head?) := by
  constructor
  · intro now pre post it hpre hit
    unfold selectLatestItem
    rw [find?_of_forall_false _ hpre, List.find?_cons_of_pos _ hit]
    rfl
  · intro now items hitems
    unfold selectLatestItem
    rw [List.find?_eq_none.mpr fun x hx => by simp [hitems x hx]]
    rfl

/-- C4 witness: a future batch is skipped and the first non-future batch is
selected. -/
theorem itemSelection_amended_witness :
    selectLatestItem [⟨12, []⟩, ⟨7, []⟩] 10 = some ⟨7, []⟩ :=
  itemSelection_amended.1 10 [⟨12, []⟩] [] ⟨7, []⟩ (by decide) (by decide)

/-- C5 (counterexample): a condition containing "thundery" but no
rain/shower term can still score 6 with temperature > 32 and humidity > 85,
because the fair/sunny check precedes the thundery check — so the claimed
extreme worst case does not always clamp to 0. -/
theorem scoreClamp_counterexample :
    calculateSuitabilityScore "thundery with sunny spells" 33 86 = 6
    ∧ jsIncludes "thundery with sunny spells" "thundery" = true
    ∧ jsIncludes "thundery with sunny spells" "rain" = false
    ∧ jsIncludes "thundery with sunny spells" "shower" = false
    ∧ (32 : Int) < 33 ∧ (85 : Int) < 86 ∧ (6 : Int) ≠ 0 := by decide

/-- C5 (amended): every score lies in [0, 10]; and the extreme worst case —
a condition containing "thundery" and none of "fair", "sunny", "cloudy",
"rain", "shower", with temperature > 32 and humidity > 85 — clamps to 0
rather than going negative, while no input can exceed 10. -/
theorem scoreBounds_amended :
    (∀ (w : String) (t h : Int),
        0 ≤ calculateSuitabilityScore w t h ∧ calculateSuitabilityScore w t h ≤ 10)
    ∧ (∀ (w : String) (t h : Int),
        jsIncludes w "thundery" = true →
        jsIncludes w "fair" = false → jsIncludes w "sunny" = false →
        jsIncludes w "cloudy" = false →
        jsIncludes w "rain" = false → jsIncludes w "shower" = false →
        32 < t → 85 < h →
        calculateSuitabilityScore w t h = 0) := by
  constructor
  · intro w t h
    exact ⟨le_max_left 0 _, max_le (by norm_num) (min_le_left 10 _)⟩
  · intro w t h hth hfair hsunny hcloudy hrain hshower ht hh
    have hpc : jsIncludes w "partly cloudy" = false := by
      cases hx : jsIncludes w "partly cloudy" with
      | false => rfl
      | true =>
        have hc := @jsIncludes_trans w "partly cloudy" "cloudy" (by decide) hx
        rw [hcloudy] at hc
        exact absurd hc (by simp)
    simp only [calculateSuitabilityScore, hth, hfair, hsunny, hcloudy, hrain,
      hshower, hpc]
    norm_num
    split_ifs <;> omega

/-- C5 witness: the literal condition "thundery" with temperature 33 and
humidity 86 clamps to 0. -/
theorem scoreBounds_amended_witness :
    calculateSuitabilityScore "thundery" 33 86 = 0 :=
  scoreBounds_amended.2 "thundery" 33 86 (by decide) (by decide) (by decide)
    (by decide) (by decide) (by decide) (by decide) (by decide)

/-- C6: the rating thresholds are inclusive on the low side of each tier —
score ≥ 8 yields Excellent, 6 ≤ score < 8 yields Good, 4 ≤ score < 6 yields
Fair, score < 4 yields Poor; concretely 8 → Excellent, 7 → Good, 5 → Fair,
4 → Fair, 3 → Poor. -/
theorem ratingThresholds :
    (∀ score : Int,
        (8 ≤ score → ratingOfScore score = "Excellent")
      ∧ (6 ≤ score → score < 8 → ratingOfScore score = "Good")
      ∧ (4 ≤ score → score < 6 → ratingOfScore score = "Fair")
      ∧ (score < 4 → ratingOfScore score = "Poor"))
    ∧ ratingOfScore 8 = "Excellent" ∧ ratingOfScore 7 = "Good"
    ∧ ratingOfScore 5 = "Fair" ∧ ratingOfScore 4 = "Fair"
    ∧ ratingOfScore 3 = "Poor" := by
  refine ⟨fun score => ⟨fun h1 => ?_, fun h1 h2 => ?_, fun h1 h2 => ?_,
      fun h1 => ?_⟩, by decide, by decide, by decide, by decide, by decide⟩ <;>
    · unfold ratingOfScore
      split_ifs <;> first | rfl | omega

/-- C6 witness: score 7 is rated Good. -/
theorem ratingThresholds_witness : ratingOfScore 7 = "Good" :=
  (ratingThresholds.1 7).2.1 (by decide) (by decide)

/-- C7: when every feed fails — all non-success responses, or all transport
failures — the run does not throw past the pipeline boundary: the
current-conditions display receives the fixed fallback triple (default
temperature, sun icon, neutral message) and the forecast display is left
unrendered. -/
theorem totalFailure_fallback :
    ∀ (fmtDate : String → String) (now : Nat),
      updateWeatherDisplay .httpError .httpError .httpError fmtDate now
        = (renderFallbackWeather, none)
      ∧ updateWeatherDisplay .transportError .transportError .transportError fmtDate now
        = (renderFallbackWeather, none)
      ∧ renderFallbackWeather = ⟨"28Â°C", "fa-sun", "Check local weather!"⟩ :=
  fun _ _ => ⟨rfl, rfl, rfl⟩

/-- C8: the thunder check precedes the rain/shower check in `getWeatherIcon`,
so every condition containing a thunder term and a rain/shower term yields
the lightning icon, never a rain icon. -/
theorem thunderPriority (s : String)
    (hth : jsIncludes (jsToLower s) "thundery" = true
         ∨ jsIncludes (jsToLower s) "thunder" = true)
    (_hrs : jsIncludes (jsToLower s) "rain" = true
         ∨ jsIncludes (jsToLower s) "shower" = true) :
    getWeatherIcon s = "fa-bolt" := by
  have hb : (jsIncludes (jsToLower s) "thundery"
      || jsIncludes (jsToLower s) "thunder") = true := by
    rcases hth with h | h <;> simp [h]
  simp [getWeatherIcon, hb]

/-- C8 witness: "Thundery Showers" resolves to the lightning icon. -/
theorem thunderPriority_witness : getWeatherIcon "Thundery Showers" = "fa-bolt" :=
  thunderPriority "Thundery Showers" (Or.inl (by decide)) (Or.inr (by decide))

/-- C9: the icon mapper checks "cloudy" before "partly cloudy", so "Cloudy"
and "Partly Cloudy" both map to the cloud icon, while the recommendation
mapper checks "partly cloudy" before "cloudy", so "Partly Cloudy" yields the
higher encouragement tier and "Cloudy" the mild one — the two rule orders
are independent. -/
theorem mapperOrders :
    getWeatherIcon "Cloudy" = "fa-cloud"
    ∧ getWeatherIcon "Partly Cloudy" = "fa-cloud"
    ∧ getCleanupRecommendation "Partly Cloudy" = "Great conditions!"
    ∧ getCleanupRecommendation "Cloudy" = "Good for cleanup!" := by decide

/-- C10: a day's suitability rating is computed only from its condition
text, high temperature and high relative humidity — changing the low
temperature, low humidity or wind never changes the rating. -/
theorem suitabilityInputs :
    ∀ (fmtDate : String → String) (day : DayForecast) (tl hl : Int)
      (w : Option WindInfo),
      (mkDailyOutlook fmtDate day).cleanupSuitability
        = getCleanupSuitability day.forecast day.temperature.high
            day.relative_humidity.high
      ∧ (mkDailyOutlook fmtDate
            { day with temperature := ⟨day.temperature.high, tl⟩,
                       relative_humidity := ⟨day.relative_humidity.high, hl⟩,
                       wind := w }).cleanupSuitability
        = (mkDailyOutlook fmtDate day).cleanupSuitability :=
  fun _ _ _ _ _ => ⟨rfl, rfl⟩
